import Mathlib

/-!
Verification development for the BMT assignment optimizer (`src/app.py`,
class `UpdatedBMTOptimizer`).  The Python program is shallowly embedded:
records become structures, pandas rows become lists of structures, float
weights become exact rationals, and code that can raise an exception
(string indexing on an empty string) returns `Option`.  Python's ASCII
string case conversions are modelled by explicit character maps.
-/

/-- ASCII upper-casing of one character, as Python `str.upper()` acts on
ASCII input. -/
def upChar (c : Char) : Char :=
  if 'a' ≤ c ∧ c ≤ 'z' then Char.ofNat (c.toNat - 32) else c

/-- ASCII lower-casing of one character, as Python `str.lower()` acts on
ASCII input. -/
def lowChar (c : Char) : Char :=
  if 'A' ≤ c ∧ c ≤ 'Z' then Char.ofNat (c.toNat + 32) else c

/-- Python `s.upper()` (ASCII fragment). -/
def strUpper (s : String) : String := ⟨s.data.map upChar⟩

/-- Python `s.lower()` (ASCII fragment). -/
def strLower (s : String) : String := ⟨s.data.map lowChar⟩

/-- Does `hay` start with `needle` (on character lists)? -/
def startsWithChars : List Char → List Char → Bool
  | [], _ => true
  | _ :: _, [] => false
  | a :: as, b :: bs => a == b && startsWithChars as bs

/-- Substring search on character lists. -/
def hasSubChars (needle : List Char) : List Char → Bool
  | [] => needle.isEmpty
  | b :: bs => startsWithChars needle (b :: bs) || hasSubChars needle bs

/-- Python's `needle in hay` substring test for strings. -/
def pyIn (needle hay : String) : Bool := hasSubChars needle.data hay.data

/-- A nurse row.  The typed embedding makes the required columns of
`validate_input` always present; optional columns keep the default the
Python `get` calls supply (`Pod_Pref` stays optional because the two
`get` calls that read it use different defaults). -/
structure Nurse where
  nurseId : String
  name : String
  skillLevel : Int
  chemoIVCert : String
  maxPatients : Int
  podPref : Option String
  pregnancyStatus : String
deriving DecidableEq, Repr

/-- A patient row.  `acuity` is the `Acuity` column (overwritten by the
preprocessor with the final acuity); `vesicant` is the `Vesicant` column
(overwritten by the preprocessor). -/
structure Patient where
  patientId : String
  initials : String
  baseAcuity : Int
  newAdmit : String
  chemoType : String
  chemoFrequency : String
  centralLine : String
  ivMedications : String
  cmvStatus : String
  lastNurse : String
  pod : Option String
  vesicant : String
  acuity : Int
deriving DecidableEq, Repr

/-- The weight configuration (floats in the source, exact rationals
here). -/
structure Config where
  continuityWeight : ℚ
  skillWeight : ℚ
  geographyWeight : ℚ
deriving DecidableEq, Repr

/-- The documented default weights. -/
def defaultConfig : Config := ⟨3/10, 2/5, 1/5⟩

/-- Embedding of `UpdatedBMTOptimizer.calculate_final_acuity` (src/app.py:19-31):
add one point for a new admission, one point for multiple IV chemo,
cap at 10. -/
def calculate_final_acuity (baseAcuity : Int) (newAdmit chemoFrequency : String) : Int :=
  let a1 := if strUpper newAdmit = "Y" then baseAcuity + 1 else baseAcuity
  let a2 := if strLower chemoFrequency = "multiple" then a1 + 1 else a1
  min a2 10

/-- Embedding of `UpdatedBMTOptimizer.determine_vesicant_status` (src/app.py:33-47). -/
def determine_vesicant_status (centralLine ivMedications chemoType : String) : Bool :=
  if strLower centralLine ≠ "peripheral" then false
  else
    let ivMeds := strLower ivMedications
    pyIn "antiarrhythmics" ivMeds || pyIn "vasopressors" ivMeds
      || strUpper chemoType == "IV"

/-- Per-row body of `preprocess_patient_data` (src/app.py:49-70): store the
final acuity in the `Acuity` column and the derived vesicant flag in the
`Vesicant` column. -/
def preprocessPatient (p : Patient) : Patient :=
  { p with
    acuity := calculate_final_acuity p.baseAcuity p.newAdmit p.chemoFrequency
    vesicant :=
      if determine_vesicant_status p.centralLine p.ivMedications p.chemoType
      then "Y" else "N" }

/-- Embedding of `UpdatedBMTOptimizer.preprocess_patient_data` (src/app.py:49-70). -/
def preprocess_patient_data (ps : List Patient) : List Patient :=
  ps.map preprocessPatient

/-- Claim C5: for base acuity in [1,10] the preprocessor formula is
`min 10 (base + [new_admit=Y] + [chemo_frequency=multiple])`, and the
result always lies in [1,10]. -/
theorem C5_final_acuity_formula (b : Int) (na cf : String)
    (h1 : 1 ≤ b) (h2 : b ≤ 10) :
    calculate_final_acuity b na cf
      = min 10 (b + (if strUpper na = "Y" then 1 else 0)
          + (if strLower cf = "multiple" then 1 else 0))
    ∧ 1 ≤ calculate_final_acuity b na cf
    ∧ calculate_final_acuity b na cf ≤ 10 := by
  by_cases hna : strUpper na = "Y" <;> by_cases hcf : strLower cf = "multiple" <;>
    simp only [calculate_final_acuity, hna, hcf, if_true, if_false,
      eq_self_iff_true, if_pos, if_neg, not_false_iff] <;>
    omega

/-- Witness for C5 at base 7, `new_admit = "y"`, `chemo_frequency =
"MULTIPLE"`. -/
theorem C5_final_acuity_formula_witness :
    (1 : Int) ≤ 7 ∧ (7 : Int) ≤ 10 ∧
    (calculate_final_acuity 7 "y" "MULTIPLE"
        = min 10 (7 + (if strUpper "y" = "Y" then 1 else 0)
            + (if strLower "MULTIPLE" = "multiple" then 1 else 0))
      ∧ 1 ≤ calculate_final_acuity 7 "y" "MULTIPLE"
      ∧ calculate_final_acuity 7 "y" "MULTIPLE" ≤ 10) :=
  ⟨by decide, by decide,
    C5_final_acuity_formula 7 "y" "MULTIPLE" (by decide) (by decide)⟩

/-- Claim C9: switching `new_admit` from N to Y, with base acuity and
chemo frequency fixed, never decreases the derived final acuity. -/
theorem C9_new_admit_monotone (b : Int) (cf : String) :
    calculate_final_acuity b "N" cf ≤ calculate_final_acuity b "Y" cf := by
  have hN : strUpper "N" = "N" := by decide
  have hY : strUpper "Y" = "Y" := by decide
  unfold calculate_final_acuity
  rw [hN, hY]
  simp only [if_pos rfl, if_neg (by decide : ¬ ("N" : String) = "Y")]
  split <;> omega

/-- Embedding of `UpdatedBMTOptimizer.check_hard_constraints` (src/app.py:72-95): the
four implemented hard rules, in source order. -/
def check_hard_constraints (n : Nurse) (p : Patient) : List String :=
  let v1 : List String :=
    if strUpper p.chemoType = "IV" ∧ strUpper n.chemoIVCert ≠ "Y" then
      ["IV chemo requires certification"] else []
  let v2 : List String :=
    if strUpper p.vesicant = "Y" ∧ n.skillLevel < 2 then
      ["Vesicant medications need experienced nurse (skill 2+)"] else []
  let v3 : List String :=
    if p.acuity ≥ 8 ∧ n.skillLevel < 2 then
      ["High acuity (8+) needs experienced nurse"] else []
  let v4 : List String :=
    if strUpper p.cmvStatus = "POSITIVE" ∧ strUpper n.pregnancyStatus = "Y" then
      ["CMV+ patient cannot be assigned to pregnant nurse"] else []
  v1 ++ v2 ++ v3 ++ v4

/-- Code point of the first character of a string, `none` when the string
is empty (Python `ord(s[0])`, which raises IndexError on `""`). -/
def firstCharCode (s : String) : Option Int :=
  s.data.head?.map (fun c => (c.toNat : Int))

/-- Continuity bonus condition of `calculate_assignment_score`
(src/app.py:101-103): a plain string equality, no non-emptiness check. -/
def continuityTerm (n : Nurse) (p : Patient) (c : Config) : ℚ :=
  if n.nurseId = p.lastNurse then 10 * c.continuityWeight else 0

/-- Geography bonus of `calculate_assignment_score` (src/app.py:105-109).
The `elif` branch indexes character 0 of both pod strings (defaults `"A"`
when the field is absent), so a present-but-empty pod string on one side,
with a non-empty pod on the other, raises IndexError: modelled as `none`. -/
def geoTerm (n : Nurse) (p : Patient) (c : Config) : Option ℚ :=
  if n.podPref.getD "" = p.pod.getD "" then some (8 * c.geographyWeight)
  else
    match firstCharCode (n.podPref.getD "A"), firstCharCode (p.pod.getD "A") with
    | some a, some b =>
        if (a - b).natAbs = 1 then some (4 * c.geographyWeight) else some 0
    | _, _ => none

/-- Skill-acuity matching of `calculate_assignment_score`
(src/app.py:111-126), first matching branch wins. -/
def skillTerm (n : Nurse) (p : Patient) (c : Config) : ℚ :=
  if n.skillLevel = 3 ∧ p.acuity ≥ 8 then 12 * c.skillWeight
  else if n.skillLevel = 3 ∧ 5 ≤ p.acuity ∧ p.acuity ≤ 7 then 10 * c.skillWeight
  else if n.skillLevel = 2 ∧ 4 ≤ p.acuity ∧ p.acuity ≤ 8 then 10 * c.skillWeight
  else if n.skillLevel = 1 ∧ p.acuity ≤ 5 then 8 * c.skillWeight
  else -(((n.skillLevel * 3 - p.acuity).natAbs : ℚ) * c.skillWeight)

/-- Vesicant bonus of `calculate_assignment_score` (src/app.py:128-130). -/
def vesicantTerm (n : Nurse) (p : Patient) (c : Config) : ℚ :=
  if strUpper p.vesicant = "Y" ∧ n.skillLevel = 3 then 5 * c.skillWeight else 0

/-- New-admit bonus of `calculate_assignment_score` (src/app.py:132-134). -/
def newAdmitTerm (n : Nurse) (p : Patient) (c : Config) : ℚ :=
  if strUpper p.newAdmit = "Y" ∧ n.skillLevel ≥ 2 then 3 * c.skillWeight else 0

/-- Embedding of `UpdatedBMTOptimizer.calculate_assignment_score` (src/app.py:97-136):
base score 1 plus the five additive adjustments; `none` models the
IndexError the geography branch can raise. -/
def calculate_assignment_score (n : Nurse) (p : Patient) (c : Config) : Option ℚ :=
  match geoTerm n p c with
  | none => none
  | some g =>
      some (1 + continuityTerm n p c + g + skillTerm n p c
        + vesicantTerm n p c + newAdmitTerm n p c)

/-- Embedding of `UpdatedBMTOptimizer.validate_input` (src/app.py:138-164).  In the
typed embedding every required column exists, so the missing-column
checks (lines 142-152) never fire and are omitted; the two feasibility
prechecks are kept.  There is no total-capacity check in the source. -/
def validate_input (nurses : List Nurse) (patients : List Patient) : List String :=
  let e1 : List String :=
    if patients.length > 20 then
      ["Exceeds unit capacity: " ++ toString patients.length ++ " > 20 patients"]
    else []
  let ivPatients := (patients.filter (fun p => strUpper p.chemoType == "IV")).length
  let ivNurses := (nurses.filter (fun n => strUpper n.chemoIVCert == "Y")).length
  let e2 : List String :=
    if ivPatients > ivNurses * 2 then
      ["Insufficient IV certified nurses: " ++ toString ivPatients
        ++ " IV patients need " ++ toString ivNurses ++ " certified nurses"]
    else []
  e1 ++ e2

/-- Outcome of `optimize_assignments` up to the point where the program
is handed to the external MILP solver. -/
inductive PipeOutcome
  | validationError (details : List String)
  | optimizationFailed (msg : String)
  | reachedSolve
deriving DecidableEq, Repr

/-- The solver-independent prefix of
`UpdatedBMTOptimizer.optimize_assignments` (src/app.py:166-256):
preprocess, validate, then build constraints and objective coefficients.
Constraint construction is total; computing an objective coefficient can
raise (geography indexing), which the surrounding `try` turns into the
`"Optimization failed: ..."` error return (line 255-256).  If every
coefficient evaluates, control reaches the solver call. -/
def optimize_assignments_preSolve (nurses : List Nurse) (patients : List Patient)
    (c : Config) : PipeOutcome :=
  let pats := preprocess_patient_data patients
  let errs := validate_input nurses pats
  if errs ≠ [] then .validationError errs
  else if nurses.all (fun n => pats.all (fun p => (calculate_assignment_score n p c).isSome))
  then .reachedSolve
  else .optimizationFailed "Optimization failed: string index out of range"

/-- Nurse for the C1 counterexample: skill level 1. -/
def c1Nurse : Nurse := ⟨"N1", "Davis, Amanda", 1, "N", 4, some "A", "N"⟩

/-- Raw patient for the C1 counterexample: a new admission whose other
attributes trigger none of the four implemented hard rules. -/
def c1Patient : Patient :=
  ⟨"P1", "J.D.", 3, "Y", "none", "Single", "none", "", "Negative", "", some "A", "N", 0⟩

/-- Claim C1 is false on the code: the constraint oracle reports no
violation for a pair of a skill-1 nurse and a (preprocessed) new-admit
patient, so the pair is admissible, the MILP does not fix it to 0 and the
fallback does not skip it. -/
theorem C1_counterexample :
    check_hard_constraints c1Nurse (preprocessPatient c1Patient) = []
    ∧ strUpper (preprocessPatient c1Patient).newAdmit = "Y"
    ∧ c1Nurse.skillLevel < 2 := by
  refine ⟨?_, ?_, ?_⟩ <;> decide

/-- Claim C1 amended: `check_hard_constraints` never reads `new_admit`;
its verdict is unchanged under any change of that field, so a new-admit
patient and a skill-1 nurse form an admissible pair whenever the four
implemented rules (IV certification, vesicant, acuity ≥ 8, CMV) pass. -/
theorem C1_amended_oracle_ignores_new_admit (n : Nurse) (p : Patient) (x : String) :
    check_hard_constraints n { p with newAdmit := x } = check_hard_constraints n p := rfl

/-- Nurses for the C4 counterexample: a single nurse with
`max_patients = 1`. -/
def c4Nurses : List Nurse := [⟨"N1", "Johnson, Sarah", 2, "N", 1, some "A", "N"⟩]

/-- Patients for the C4 counterexample: two patients, exceeding the total
capacity of 1. -/
def c4Patients : List Patient :=
  [⟨"P1", "J.D.", 4, "N", "none", "Single", "none", "", "Negative", "", some "A", "N", 0⟩,
   ⟨"P2", "M.K.", 3, "N", "none", "Single", "none", "", "Negative", "", some "A", "N", 0⟩]

/-- Claim C4 is false on the code: with total `max_patients` (1) strictly
below the patient count (2), `validate_input` still returns no error at
all, and the pipeline proceeds to the solver call. -/
theorem C4_counterexample :
    (c4Nurses.map Nurse.maxPatients).sum < (c4Patients.length : Int)
    ∧ validate_input c4Nurses (preprocess_patient_data c4Patients) = []
    ∧ optimize_assignments_preSolve c4Nurses c4Patients defaultConfig
        = PipeOutcome.reachedSolve := by
  refine ⟨by decide, by decide, ?_⟩
  with_unfolding_all decide

/-- Claim C4 amended: `validate_input` performs no total-capacity check;
its result does not depend on the nurses' `max_patients` values at all,
so an under-capacity roster passes validation whenever the other checks
pass and the solver is invoked. -/
theorem C4_amended_validation_ignores_capacity (nurses : List Nurse)
    (patients : List Patient) (f : Nurse → Int) :
    validate_input (nurses.map (fun n => { n with maxPatients := f n })) patients
      = validate_input nurses patients := by
  have hlen : ∀ l : List Nurse,
      ((l.map (fun n => { n with maxPatients := f n })).filter
          (fun n => strUpper n.chemoIVCert == "Y")).length
        = (l.filter (fun n => strUpper n.chemoIVCert == "Y")).length := by
    intro l
    induction l with
    | nil => rfl
    | cons a t ih =>
      simp only [List.map_cons, List.filter_cons]
      by_cases h : (strUpper a.chemoIVCert == "Y") = true
      · simp only [h, if_true, List.length_cons, ih]
      · simp only [h, Bool.false_eq_true, if_false, ih]
  simp only [validate_input, hlen nurses]

/-- Modelled from the spec's section-3 wording, to be compared with the
source derivation `determine_vesicant_status`: vesicant iff the central
line is peripheral and (IV chemo, or a vesicant keyword occurs in the IV
medications, matched case-insensitively).  It does not read the
caller-supplied `vesicant` field. -/
def vesicantSpecRule (p : Patient) : Bool :=
  strLower p.centralLine == "peripheral"
    && (strUpper p.chemoType == "IV"
        || pyIn "antiarrhythmics" (strLower p.ivMedications)
        || pyIn "vasopressors" (strLower p.ivMedications))

/-- The source derivation agrees with the spec formula on every input. -/
theorem determine_vesicant_status_eq_spec (cl meds ct : String) :
    determine_vesicant_status cl meds ct
      = (strLower cl == "peripheral"
          && (strUpper ct == "IV" || pyIn "antiarrhythmics" (strLower meds)
              || pyIn "vasopressors" (strLower meds))) := by
  unfold determine_vesicant_status
  by_cases h : strLower cl = "peripheral"
  · rw [if_neg (not_not_intro h)]
    have hb : (strLower cl == "peripheral") = true := by simp [h]
    rw [hb]
    cases hA : pyIn "antiarrhythmics" (strLower meds) <;>
      cases hV : pyIn "vasopressors" (strLower meds) <;>
      cases hI : (strUpper ct == "IV") <;> simp [hA, hV, hI]
  · rw [if_pos h]
    have hb : (strLower cl == "peripheral") = false := by simp [h]
    rw [hb]
    rfl

/-- Claim C6: the preprocessor sets every patient's `vesicant` field to Y
exactly when the spec's derivation condition holds; the formula does not
mention the incoming `vesicant` value, so any caller-supplied value is
ignored and overwritten. -/
theorem C6_vesicant_derivation (ps : List Patient) :
    (preprocess_patient_data ps).map Patient.vesicant
      = ps.map (fun p => if vesicantSpecRule p then "Y" else "N") := by
  induction ps with
  | nil => rfl
  | cons p t ih =>
    simp only [preprocess_patient_data, List.map_cons] at ih ⊢
    rw [ih]
    congr 1
    show (preprocessPatient p).vesicant = _
    simp only [preprocessPatient]
    rw [determine_vesicant_status_eq_spec]
    rfl

/-- Nurse for the C8 counterexample: empty `nurse_id`. -/
def c8Nurse : Nurse := ⟨"", "Davis, Amanda", 1, "N", 4, some "A", "N"⟩

/-- Patient for the C8 counterexample: empty `last_nurse`, otherwise a
plain preprocessed patient (final acuity 5, not vesicant). -/
def c8Patient : Patient :=
  ⟨"P1", "J.D.", 5, "N", "none", "Single", "none", "", "Negative", "", some "A", "N", 5⟩

/-- Claim C8 is false on the code: the pair with empty `nurse_id` and
empty `last_nurse` is admissible and receives the continuity bonus
(score 44/5 = 5.8 + 10·0.30), while the same pair with a non-matching
`last_nurse` scores 29/5 = 5.8. -/
theorem C8_counterexample :
    c8Nurse.nurseId = "" ∧ c8Patient.lastNurse = ""
    ∧ check_hard_constraints c8Nurse c8Patient = []
    ∧ calculate_assignment_score c8Nurse c8Patient defaultConfig = some (44/5)
    ∧ calculate_assignment_score c8Nurse { c8Patient with lastNurse := "X" } defaultConfig
        = some (29/5) := by
  refine ⟨rfl, rfl, by decide, ?_, ?_⟩ <;> with_unfolding_all decide

/-- Claim C8 amended: the continuity bonus of `10 · Continuity_Weight` is
added exactly when `nurse_id` equals `last_nurse` as strings, with no
non-emptiness requirement: relative to any non-matching `last_nurse`, a
matching pair (empty strings included) scores higher by exactly the
bonus. -/
theorem C8_amended_continuity_iff_equal (n : Nurse) (p : Patient) (c : Config)
    (s : String) (h1 : p.lastNurse = n.nurseId) (h2 : s ≠ n.nurseId) :
    calculate_assignment_score n p c
      = (calculate_assignment_score n { p with lastNurse := s } c).map
          (fun q => q + 10 * c.continuityWeight) := by
  have hgeo : geoTerm n { p with lastNurse := s } c = geoTerm n p c := rfl
  unfold calculate_assignment_score
  rw [hgeo]
  cases hg : geoTerm n p c with
  | none => rfl
  | some g =>
    have hskill : skillTerm n { p with lastNurse := s } c = skillTerm n p c := rfl
    have hves : vesicantTerm n { p with lastNurse := s } c = vesicantTerm n p c := rfl
    have hna : newAdmitTerm n { p with lastNurse := s } c = newAdmitTerm n p c := rfl
    have hcont : continuityTerm n p c = 10 * c.continuityWeight := by
      unfold continuityTerm
      rw [if_pos h1.symm]
    have hcont' : continuityTerm n { p with lastNurse := s } c = 0 := by
      unfold continuityTerm
      exact if_neg (fun hh => h2 hh.symm)
    simp only [Option.map_some', hskill, hves, hna, hcont, hcont']
    congr 1
    ring

/-- Nurse for the C8 amended witness: `nurse_id = "N1"`. -/
def c8wNurse : Nurse := ⟨"N1", "Chen, Michael", 3, "Y", 4, some "A", "N"⟩

/-- Patient for the C8 amended witness: `last_nurse = "N1"`. -/
def c8wPatient : Patient :=
  ⟨"P1", "J.D.", 5, "N", "none", "Single", "none", "", "Negative", "N1", some "A", "N", 5⟩

/-- Witness for the amended C8 at a matching non-empty pair and the
non-matching replacement `"X"`. -/
theorem C8_amended_continuity_iff_equal_witness :
    c8wPatient.lastNurse = c8wNurse.nurseId ∧ ("X" : String) ≠ c8wNurse.nurseId ∧
    calculate_assignment_score c8wNurse c8wPatient defaultConfig
      = (calculate_assignment_score c8wNurse { c8wPatient with lastNurse := "X" }
            defaultConfig).map (fun q => q + 10 * defaultConfig.continuityWeight) :=
  ⟨rfl, by decide,
    C8_amended_continuity_iff_equal c8wNurse c8wPatient defaultConfig "X" rfl (by decide)⟩

/-- Nurse for C10: `Pod_Pref` present but equal to the empty string. -/
def c10Nurse : Nurse := ⟨"N1", "Johnson, Sarah", 3, "Y", 4, some "", "N"⟩

/-- Patient for C10: a one-letter pod, otherwise benign. -/
def c10Patient : Patient :=
  ⟨"P1", "J.D.", 5, "N", "none", "Single", "none", "", "Negative", "", some "A", "N", 0⟩

/-- Claim C10: with exactly one of the two pod strings present-but-empty
(the other a non-empty letter), the geography term indexes the first
character of the empty string; the raised IndexError is caught and the
optimization returns the `"Optimization failed: ..."` error instead of
any assignment. -/
theorem C10_empty_pod_crash :
    c10Nurse.podPref = some "" ∧ c10Patient.pod = some "A" ∧
    optimize_assignments_preSolve [c10Nurse] [c10Patient] defaultConfig
      = PipeOutcome.optimizationFailed "Optimization failed: string index out of range" := by
  refine ⟨rfl, rfl, ?_⟩
  with_unfolding_all decide

/-- Patient record stored in a fallback workload
(src/app.py:386-392). -/
structure FBPatient where
  patientId : String
  initials : String
  finalAcuity : Int
  chemo : String
  vesicant : String
deriving DecidableEq, Repr

/-- Projection of a patient into the stored fallback record. -/
def toFBPatient (p : Patient) : FBPatient :=
  ⟨p.patientId, p.initials, p.acuity, p.chemoType, p.vesicant⟩

/-- One entry of the `nurse_workloads` dict (src/app.py:355-356), keyed
by `Nurse_ID`. -/
structure WLEntry where
  key : String
  patients : List FBPatient
  acuity : Int
deriving DecidableEq, Repr

/-- The initial workload table: every nurse id maps to an empty load. -/
def initWorkloads (nurses : List Nurse) : List WLEntry :=
  nurses.map (fun n => ⟨n.nurseId, [], 0⟩)

/-- Dict lookup `nurse_workloads[k]`; an absent key yields an empty load
(cannot occur for the keys the source uses). -/
def wlFind (w : List WLEntry) (k : String) : WLEntry :=
  match w.find? (fun e => e.key == k) with
  | some e => e
  | none => ⟨k, [], 0⟩

/-- Dict update appending an assigned patient and its acuity
(src/app.py:386-393). -/
def wlUpdate (w : List WLEntry) (k : String) (p : Patient) : List WLEntry :=
  w.map (fun e =>
    if e.key == k then ⟨e.key, e.patients ++ [toFBPatient p], e.acuity + p.acuity⟩ else e)

/-- Inner nurse loop of `create_fallback_solution` (src/app.py:363-383):
scan nurses in order, skipping full nurses and pairs with hard-constraint
violations, and keep the nurse with the strictly best workload-penalised
score (initial best score -999).  `none` models an exception raised while
scoring. -/
def fbSelect (p : Patient) (w : List WLEntry) (c : Config) :
    List Nurse → ℚ → Option Nurse → Option (Option Nurse)
  | [], _, best => some best
  | n :: rest, bestScore, best =>
    if ((wlFind w n.nurseId).patients.length : Int) ≥ n.maxPatients then
      fbSelect p w c rest bestScore best
    else if check_hard_constraints n p ≠ [] then
      fbSelect p w c rest bestScore best
    else
      match calculate_assignment_score n p c with
      | none => none
      | some sc =>
        let total := sc - ((wlFind w n.nurseId).acuity : ℚ) * (3/10)
        if total > bestScore then fbSelect p w c rest total (some n)
        else fbSelect p w c rest bestScore best

/-- Outer patient loop of `create_fallback_solution` (src/app.py:359-394),
threading the workload table and counting patients left unassigned. -/
def fbLoop (nurses : List Nurse) (c : Config) :
    List Patient → List WLEntry → Nat → Option (List WLEntry × Nat)
  | [], w, u => some (w, u)
  | p :: rest, w, u =>
    match fbSelect p w c nurses (-999) none with
    | none => none
    | some none => fbLoop nurses c rest w (u + 1)
    | some (some n) => fbLoop nurses c rest (wlUpdate w n.nurseId p) u

/-- Stable insertion of a patient into a list sorted by descending
acuity. -/
def insertByAcuityDesc (p : Patient) : List Patient → List Patient
  | [] => [p]
  | q :: rest =>
    if p.acuity ≥ q.acuity then p :: q :: rest else q :: insertByAcuityDesc p rest

/-- The `sort_values('Acuity', ascending=False)` step (src/app.py:352),
modelled as a stable descending sort. -/
def sortByAcuityDesc : List Patient → List Patient
  | [] => []
  | p :: rest => insertByAcuityDesc p (sortByAcuityDesc rest)

/-- One per-nurse record of the fallback output (src/app.py:397-406). -/
structure FBAssignment where
  nurseId : String
  nurseName : String
  patients : List FBPatient
  totalAcuity : Int
  patientCount : Nat
deriving DecidableEq, Repr

/-- The fallback return value (src/app.py:410-419). -/
structure FBResult where
  success : Bool
  fallback : Bool
  assignments : List FBAssignment
  unassignedPatients : Nat
  workloadVariance : Int
deriving DecidableEq, Repr

/-- Maximum of a list of integers with head as the seed (Python `max` on
a nonempty list). -/
def listMaxInt : List Int → Int
  | [] => 0
  | a :: rest => rest.foldl max a

/-- Minimum of a list of integers with head as the seed (Python `min` on
a nonempty list). -/
def listMinInt : List Int → Int
  | [] => 0
  | a :: rest => rest.foldl min a

/-- Embedding of `UpdatedBMTOptimizer.create_fallback_solution` (src/app.py:349-419):
sort by descending acuity, greedily assign, then emit one record per
nurse with a nonempty workload, always with `success = true` and
`fallback = true`.  `none` models an exception escaping to the caller's
`try` block. -/
def create_fallback_solution (nurses : List Nurse) (patients : List Patient)
    (c : Config) : Option FBResult :=
  match fbLoop nurses c (sortByAcuityDesc patients) (initWorkloads nurses) 0 with
  | none => none
  | some (w, u) =>
    let assignments := nurses.filterMap (fun n =>
      let e := wlFind w n.nurseId
      if e.patients.isEmpty then none
      else some ⟨n.nurseId, n.name, e.patients, e.acuity, e.patients.length⟩)
    let acuities :=
      if assignments.isEmpty then [0] else assignments.map FBAssignment.totalAcuity
    some ⟨true, true, assignments, u, listMaxInt acuities - listMinInt acuities⟩

/-- Nurses for the C2 counterexample: two IV-certified skill-3 nurses. -/
def c2Nurses : List Nurse :=
  [⟨"N1", "Johnson, Sarah", 3, "Y", 4, some "A", "N"⟩,
   ⟨"N2", "Martinez, Lisa", 3, "Y", 4, some "A", "N"⟩]

/-- Patients for the C2 counterexample: four low-acuity IV-chemo patients
who all had nurse N1 last shift (4 IV patients against 2 certified nurses
passes the validation precheck `4 ≤ 2·2`). -/
def c2Patients : List Patient :=
  [⟨"P1", "A.A.", 1, "N", "IV", "Single", "none", "", "Negative", "N1", some "A", "N", 0⟩,
   ⟨"P2", "B.B.", 1, "N", "IV", "Single", "none", "", "Negative", "N1", some "A", "N", 0⟩,
   ⟨"P3", "C.C.", 1, "N", "IV", "Single", "none", "", "Negative", "N1", some "A", "N", 0⟩,
   ⟨"P4", "D.D.", 1, "N", "IV", "Single", "none", "", "Negative", "N1", some "A", "N", 0⟩]

/-- Claim C2 is false on the code: the greedy fallback has no per-nurse
IV-cap check, and on this validated input the continuity bonus (+3)
outweighs the workload penalty (0.3 per unit of acuity), so nurse N1
receives all four IV-chemo patients — more than the cap of 2. -/
theorem C2_counterexample :
    validate_input c2Nurses (preprocess_patient_data c2Patients) = []
    ∧ (create_fallback_solution c2Nurses (preprocess_patient_data c2Patients)
          defaultConfig).map
        (fun r => r.assignments.map (fun a =>
          (a.nurseId, (a.patients.filter (fun q => strUpper q.chemo == "IV")).length)))
      = some [("N1", 4)] := by
  refine ⟨by decide, ?_⟩
  with_unfolding_all decide

/-- An admissible pair with an IV-chemo patient implies certification:
rule 1 of the oracle. -/
theorem check_hard_constraints_iv_cert (n : Nurse) (p : Patient)
    (h : check_hard_constraints n p = []) (hiv : strUpper p.chemoType = "IV") :
    strUpper n.chemoIVCert = "Y" := by
  by_contra hc
  simp only [check_hard_constraints] at h
  rw [if_pos ⟨hiv, hc⟩] at h
  simp at h

/-- Any nurse chosen by the fallback's inner scan either was already the
incumbent best or belongs to the scanned list and passes the hard
constraints for the patient. -/
theorem fbSelect_sound (p : Patient) (w : List WLEntry) (c : Config) :
    ∀ (ns : List Nurse) (b : ℚ) (best : Option Nurse) (res : Option Nurse),
      fbSelect p w c ns b best = some res →
      ∀ n, res = some n →
        best = some n ∨ (n ∈ ns ∧ check_hard_constraints n p = []) := by
  intro ns
  induction ns with
  | nil =>
    intro b best res h n hn
    simp only [fbSelect, Option.some.injEq] at h
    subst h
    exact Or.inl hn
  | cons n0 rest ih =>
    intro b best res h n hn
    simp only [fbSelect] at h
    split at h
    · rcases ih _ _ _ h n hn with h1 | ⟨h2, h3⟩
      · exact Or.inl h1
      · exact Or.inr ⟨List.mem_cons_of_mem _ h2, h3⟩
    · split at h
      · rcases ih _ _ _ h n hn with h1 | ⟨h2, h3⟩
        · exact Or.inl h1
        · exact Or.inr ⟨List.mem_cons_of_mem _ h2, h3⟩
      · rename_i hcap hviol
        cases hsc : calculate_assignment_score n0 p c with
        | none => rw [hsc] at h; cases h
        | some sc =>
          rw [hsc] at h
          dsimp only at h
          split at h
          · rcases ih _ _ _ h n hn with h1 | ⟨h2, h3⟩
            · cases h1
              exact Or.inr ⟨List.mem_cons_self _ _, not_not.mp hviol⟩
            · exact Or.inr ⟨List.mem_cons_of_mem _ h2, h3⟩
          · rcases ih _ _ _ h n hn with h1 | ⟨h2, h3⟩
            · exact Or.inl h1
            · exact Or.inr ⟨List.mem_cons_of_mem _ h2, h3⟩

/-- A workload entry with a nonempty patient list really is a table entry
for its key. -/
theorem wlFind_mem (w : List WLEntry) (k : String)
    (h : ¬ (wlFind w k).patients.isEmpty = true) :
    wlFind w k ∈ w ∧ (wlFind w k).key = k := by
  unfold wlFind
  cases hf : w.find? (fun e => e.key == k) with
  | none => exact absurd (by unfold wlFind; rw [hf]; rfl) h
  | some e =>
    dsimp only
    refine ⟨List.mem_of_find?_eq_some hf, ?_⟩
    have := List.find?_some hf
    simpa using this

/-- Invariant of the fallback loop: when nurse ids are unique, no
workload entry of a non-certified nurse ever contains an IV-chemo
patient, because every assigned pair passed `check_hard_constraints`. -/
theorem fbLoop_no_iv_for_noncert (nurses : List Nurse) (c : Config)
    (hnd : (nurses.map Nurse.nurseId).Nodup) :
    ∀ (ps : List Patient) (w : List WLEntry) (u : Nat) (w' : List WLEntry) (u' : Nat),
      fbLoop nurses c ps w u = some (w', u') →
      (∀ e ∈ w, ∀ q ∈ e.patients, ∀ n ∈ nurses, n.nurseId = e.key →
        strUpper n.chemoIVCert ≠ "Y" → strUpper q.chemo ≠ "IV") →
      (∀ e ∈ w', ∀ q ∈ e.patients, ∀ n ∈ nurses, n.nurseId = e.key →
        strUpper n.chemoIVCert ≠ "Y" → strUpper q.chemo ≠ "IV") := by
  intro ps
  induction ps with
  | nil =>
    intro w u w' u' h hinv
    simp only [fbLoop, Option.some.injEq, Prod.mk.injEq] at h
    obtain ⟨rfl, rfl⟩ := h
    exact hinv
  | cons p rest ih =>
    intro w u w' u' h hinv
    simp only [fbLoop] at h
    cases hsel : fbSelect p w c nurses (-999) none with
    | none => rw [hsel] at h; cases h
    | some o =>
      rw [hsel] at h
      cases o with
      | none => exact ih _ _ _ _ h hinv
      | some n0 =>
        have hok : n0 ∈ nurses ∧ check_hard_constraints n0 p = [] := by
          rcases fbSelect_sound p w c nurses (-999) none (some n0) hsel n0 rfl with
            h1 | h2
          · cases h1
          · exact h2
        refine ih _ _ _ _ h ?_
        intro e he q hq n hn hid hcert
        rcases List.mem_map.mp he with ⟨e0, he0, rfl⟩
        by_cases hk : (e0.key == n0.nurseId) = true
        · simp only [hk, if_true] at hq hid ⊢
          rcases List.mem_append.mp hq with hq0 | hq1
          · exact hinv e0 he0 q hq0 n hn hid hcert
          · have hq' : q = toFBPatient p := by simpa using hq1
            have hkey : e0.key = n0.nurseId := by simpa using hk
            have hnn0 : n = n0 := by
              refine List.inj_on_of_nodup_map hnd hn hok.1 ?_
              rw [hid, hkey]
            intro hiv
            apply hcert
            rw [hnn0]
            refine check_hard_constraints_iv_cert n0 p hok.2 ?_
            rw [hq'] at hiv
            exact hiv
        · simp only [hk, if_false] at hq hid ⊢
          exact hinv e0 he0 q hq n hn hid hcert

/-- Claim C2 amended: the fallback enforces the hard constraints during
selection, so (with unique nurse ids) a non-IV-certified nurse is
assigned no IV-chemo patient in any fallback result; it does not enforce
the per-nurse cap of 2 IV patients, which a certified nurse can exceed. -/
theorem C2_amended_noncert_no_iv (nurses : List Nurse) (patients : List Patient)
    (c : Config) (r : FBResult)
    (hnd : (nurses.map Nurse.nurseId).Nodup)
    (h : create_fallback_solution nurses patients c = some r) :
    ∀ a ∈ r.assignments, ∀ n ∈ nurses, n.nurseId = a.nurseId →
      strUpper n.chemoIVCert ≠ "Y" →
      a.patients.filter (fun q => strUpper q.chemo == "IV") = [] := by
  unfold create_fallback_solution at h
  cases hl : fbLoop nurses c (sortByAcuityDesc patients) (initWorkloads nurses) 0 with
  | none => rw [hl] at h; cases h
  | some wu =>
    obtain ⟨w, u⟩ := wu
    rw [hl] at h
    dsimp only at h
    have hr := Option.some.inj h
    subst hr
    intro a ha n hn hid hcert
    rcases List.mem_filterMap.mp ha with ⟨n1, hn1, hfa⟩
    by_cases hemp : (wlFind w n1.nurseId).patients.isEmpty = true
    · rw [if_pos hemp] at hfa; cases hfa
    · rw [if_neg hemp] at hfa
      have ha' := Option.some.inj hfa
      subst ha'
      have hfind := wlFind_mem w n1.nurseId hemp
      have hinv := fbLoop_no_iv_for_noncert nurses c hnd
        (sortByAcuityDesc patients) (initWorkloads nurses) 0 w u hl
        (by
          intro e he q hq n2 hn2 hid2 hcert2
          rcases List.mem_map.mp he with ⟨n3, _, rfl⟩
          cases hq)
      rw [List.filter_eq_nil_iff]
      intro q hq
      have hkey : n.nurseId = (wlFind w n1.nurseId).key := by
        rw [hfind.2]
        exact hid
      have := hinv (wlFind w n1.nurseId) hfind.1 q hq n hn hkey hcert
      simpa using this

/-- Nurse list for the C2 amended witness: one non-certified nurse. -/
def c2wNurses : List Nurse := [⟨"N1", "Brown, James", 2, "N", 4, some "A", "N"⟩]

/-- Patient list for the C2 amended witness: one non-IV patient the
fallback assigns to that nurse. -/
def c2wPatients : List Patient :=
  [⟨"P1", "J.D.", 5, "N", "none", "Single", "none", "", "Negative", "", some "A", "N", 5⟩]

/-- The fallback result on the C2 amended witness input. -/
def c2wResult : FBResult :=
  ⟨true, true, [⟨"N1", "Brown, James", [⟨"P1", "J.D.", 5, "none", "N"⟩], 5, 1⟩], 0, 0⟩

/-- The assignment record of the C2 amended witness. -/
def c2wAssign : FBAssignment :=
  ⟨"N1", "Brown, James", [⟨"P1", "J.D.", 5, "none", "N"⟩], 5, 1⟩

/-- The nurse of the C2 amended witness. -/
def c2wNurse : Nurse := ⟨"N1", "Brown, James", 2, "N", 4, some "A", "N"⟩

/-- Witness for the amended C2: the concrete fallback run assigns the
non-certified nurse one patient, and that workload contains no IV-chemo
patient. -/
theorem C2_amended_noncert_no_iv_witness :
    (c2wNurses.map Nurse.nurseId).Nodup
    ∧ create_fallback_solution c2wNurses c2wPatients defaultConfig = some c2wResult
    ∧ c2wAssign ∈ c2wResult.assignments
    ∧ c2wNurse ∈ c2wNurses
    ∧ strUpper c2wNurse.chemoIVCert ≠ "Y"
    ∧ c2wAssign.patients.filter (fun q => strUpper q.chemo == "IV") = [] :=
  ⟨by decide, by with_unfolding_all decide, by decide, by decide, by decide,
    C2_amended_noncert_no_iv c2wNurses c2wPatients defaultConfig c2wResult
      (by decide) (by with_unfolding_all decide) c2wAssign (by decide)
      c2wNurse (by decide) rfl (by decide)⟩

/-- Nurses for the C3 counterexample: a single nurse with
`max_patients = 0`, so the greedy loop can assign nobody. -/
def c3Nurses : List Nurse := [⟨"N1", "Johnson, Sarah", 3, "Y", 0, some "A", "N"⟩]

/-- Patients for the C3 counterexample: one ordinary patient. -/
def c3Patients : List Patient :=
  [⟨"P1", "J.D.", 5, "N", "none", "Single", "none", "", "Negative", "", some "A", "N", 0⟩]

/-- The fallback result on the C3 input: no assignments, yet a success
record. -/
def c3Result : FBResult := ⟨true, true, [], 1, 0⟩

/-- Claim C3 is false on the code: on a validated instance where the
fallback assigns zero patients, `create_fallback_solution` still returns
`success := true` with `fallback := true`; the string
`"No feasible solution"` is produced nowhere, so the solver-failure
branch (src/app.py:253) hands this success value to the caller. -/
theorem C3_counterexample :
    validate_input c3Nurses (preprocess_patient_data c3Patients) = []
    ∧ create_fallback_solution c3Nurses (preprocess_patient_data c3Patients)
        defaultConfig = some c3Result
    ∧ c3Result.assignments = [] ∧ c3Result.success = true := by
  refine ⟨by decide, ?_, rfl, rfl⟩
  with_unfolding_all decide

/-- Claim C3 amended: whenever the solver finds neither an optimal nor a
feasible solution, the pipeline returns the fallback value unchanged, and
every fallback value that is returned (no exception) carries
`success = true` and `fallback = true` — even with zero assignments; no
`"No feasible solution"` error exists in the program. -/
theorem C3_amended_fallback_always_success (nurses : List Nurse)
    (patients : List Patient) (c : Config) (r : FBResult)
    (h : create_fallback_solution nurses patients c = some r) :
    r.success = true ∧ r.fallback = true := by
  unfold create_fallback_solution at h
  cases hl : fbLoop nurses c (sortByAcuityDesc patients) (initWorkloads nurses) 0 with
  | none => rw [hl] at h; cases h
  | some wu =>
    obtain ⟨w, u⟩ := wu
    rw [hl] at h
    dsimp only at h
    have hr := Option.some.inj h
    subst hr
    exact ⟨rfl, rfl⟩

/-- Witness for the amended C3 at the concrete zero-assignment input. -/
theorem C3_amended_fallback_always_success_witness :
    create_fallback_solution c3Nurses (preprocess_patient_data c3Patients)
        defaultConfig = some c3Result
    ∧ c3Result.success = true ∧ c3Result.fallback = true :=
  ⟨by with_unfolding_all decide,
    C3_amended_fallback_always_success c3Nurses (preprocess_patient_data c3Patients)
      defaultConfig c3Result (by with_unfolding_all decide)⟩
